import Mathlib

/-!
Verification of the DHCP report module (`src/elastic/report/dhcp.rs`).

The module translates a DHCP report request into an Elasticsearch
aggregation query and reshapes the nested bucket response into a flat
record list.  We embed the JSON data model (mirroring `serde_json`
semantics for indexing: a missing key or a wrong-typed container indexes
to `null`), the five report formatters, and the dispatcher.  The event
store and filter builder live outside the provided source; they are
modelled from the spec as opaque values.
-/

namespace Evebox

/-- JSON values as produced/consumed by the report code.  Numbers are
modelled as integers: every number this module touches (`doc_count`,
aggregation sizes) is integral. -/
inductive Json where
  | null : Json
  | bool (b : Bool) : Json
  | num (n : Int) : Json
  | str (s : String) : Json
  | arr (items : List Json) : Json
  | obj (fields : List (String × Json)) : Json

namespace Json

/-- `Value::eq` specialised to comparison against a `Value::String`
(as in `bucket["key"] == JsonValue::String("0.0.0.0".to_string())`):
`serde_json`'s `PartialEq` holds exactly when `j` is a string with the
same content. -/
def eqStr (j : Json) (s : String) : Bool :=
  match j with
  | .str t => t == s
  | _ => false

/-- `serde_json` indexing by key on a shared reference: the first field
with a matching key, `null` when the key is absent or the value is not
an object. -/
def get (j : Json) (key : String) : Json :=
  match j with
  | .obj fields =>
    match fields.find? (fun p => p.1 == key) with
    | some p => p.2
    | none => .null
  | _ => .null

/-- `serde_json` indexing by position: the element at `i`, `null` when
out of range or when the value is not an array. -/
def getIdx (j : Json) (i : Nat) : Json :=
  match j with
  | .arr items => items.getD i .null
  | _ => .null

/-- `Value::as_array`: `some` of the element list for arrays, `none`
otherwise. -/
def asArray : Json → Option (List Json)
  | .arr items => some items
  | _ => none

end Json

/-- Modelled from the spec: filter fragments produced by the Filter
Builder (`elastic::request::term_filter`, `timestamp_gte_filter`,
`query_string_query` are outside the provided source).  "Each fragment
is an opaque equality/range/text clause"; we keep each constructor
abstract, identified by its arguments. -/
inductive Filter where
  | term (field value : String) : Filter
  | timestampGte (ts : Int) : Filter
  | queryString (q : String) : Filter
deriving DecidableEq

/-- Modelled from the spec: a SearchRequest is "FilterSet +
AggregationSpec tree + result-window size".  `request.set_filters`,
`request["aggs"] = aggs` and `request.size(0)` from the source set these
three components. -/
structure SearchRequest where
  filters : List Filter
  aggs : Json
  size : Nat

/-- `EventQueryParams` as used by `dhcp_report`: only `min_timestamp`
and `query_string` are read. -/
structure EventQueryParams where
  min_timestamp : Option Int
  query_string : Option String

/-- `DatastoreError` as surfaced by this module: a store/transport
failure propagated by `?`, or the anyhow error built for an unknown
report kind. -/
inductive DatastoreError where
  | storeError (msg : String) : DatastoreError
  | anyhowError (msg : String) : DatastoreError
deriving DecidableEq

/-- Modelled from the spec: the Event Store Client executes an
assembled request and returns "a response document ... or a
transport/decode error".  `ds.search(&request).await?.json().await?`
is one fallible round trip from request to response document. -/
def Store : Type := SearchRequest → Except String Json

/-- The `client_mac` terms aggregation (size 10000) with nested
`latest` top-hits (size 1, sorted by `@timestamp` descending) built by
`dhcp_report_ack` (dhcp.rs lines 58-77). -/
def ackAggs : Json :=
  .obj [("client_mac", .obj [
    ("terms", .obj [
      ("field", .str "dhcp.client_mac.keyword"),
      ("size", .num 10000)]),
    ("aggs", .obj [
      ("latest", .obj [
        ("top_hits", .obj [
          ("sort", .arr [.obj [("@timestamp", .obj [("order", .str "desc")])]]),
          ("size", .num 1)])])])])]

/-- The aggregation built by `dhcp_report_request` (dhcp.rs lines
106-127); textually the same JSON as `ackAggs` up to whitespace. -/
def requestAggs : Json :=
  .obj [("client_mac", .obj [
    ("terms", .obj [
      ("field", .str "dhcp.client_mac.keyword"),
      ("size", .num 10000)]),
    ("aggs", .obj [
      ("latest", .obj [
        ("top_hits", .obj [
          ("sort", .arr [.obj [("@timestamp", .obj [("order", .str "desc")])]]),
          ("size", .num 1)])])])])]

/-- The `servers` terms aggregation on `src_ip.keyword` (size 10000)
built by `servers` (dhcp.rs lines 157-164). -/
def serversAggs : Json :=
  .obj [("servers", .obj [
    ("terms", .obj [
      ("field", .str "src_ip.keyword"),
      ("size", .num 10000)])])]

/-- The `client_mac` terms aggregation (size 10000) with nested
`assigned_ip` terms aggregation (no size given) built by `mac`
(dhcp.rs lines 198-212). -/
def macAggs : Json :=
  .obj [("client_mac", .obj [
    ("terms", .obj [
      ("field", .str "dhcp.client_mac.keyword"),
      ("size", .num 10000)]),
    ("aggs", .obj [
      ("assigned_ip", .obj [
        ("terms", .obj [
          ("field", .str "dhcp.assigned_ip.keyword")])])])])]

/-- The `assigned_ip` terms aggregation (size 10000) with nested
`client_mac` terms aggregation (no size given) built by `ip`
(dhcp.rs lines 255-269). -/
def ipAggs : Json :=
  .obj [("assigned_ip", .obj [
    ("terms", .obj [
      ("field", .str "dhcp.assigned_ip.keyword"),
      ("size", .num 10000)]),
    ("aggs", .obj [
      ("client_mac", .obj [
        ("terms", .obj [
          ("field", .str "dhcp.client_mac.keyword")])])])])]

/-- `&bucket["latest"]["hits"]["hits"][0]["_source"]` (dhcp.rs lines
88 and 138): the single embedded top-hit document of a bucket, `null`
at any missing step. -/
def latestOf (bucket : Json) : Json :=
  ((((bucket.get "latest").get "hits").get "hits").getIdx 0).get "_source"

/-- Response formatting of `dhcp_report_ack` (dhcp.rs lines 84-95):
for each `client_mac` bucket push the latest top-hit document; a
missing/non-array buckets value yields no records. -/
def ackFormat (response : Json) : Json :=
  let results :=
    match (((response.get "aggregations").get "client_mac").get "buckets").asArray with
    | some buckets => buckets.map latestOf
    | none => []
  .obj [("data", .arr results)]

/-- Response formatting of `dhcp_report_request` (dhcp.rs lines
134-145), identical in text to the ack formatting. -/
def requestFormat (response : Json) : Json :=
  let results :=
    match (((response.get "aggregations").get "client_mac").get "buckets").asArray with
    | some buckets => buckets.map latestOf
    | none => []
  .obj [("data", .arr results)]

/-- One record of the `servers` report (dhcp.rs lines 175-178):
`{"ip": bucket["key"], "count": bucket["doc_count"]}`. -/
def serversEntry (bucket : Json) : Json :=
  .obj [("ip", bucket.get "key"), ("count", bucket.get "doc_count")]

/-- Response formatting of `servers` (dhcp.rs lines 171-185). -/
def serversFormat (response : Json) : Json :=
  let results :=
    match (((response.get "aggregations").get "servers").get "buckets").asArray with
    | some buckets => buckets.map serversEntry
    | none => []
  .obj [("data", .arr results)]

/-- One record of the `mac` report (dhcp.rs lines 222-239): collect the
string keys of the nested `assigned_ip` buckets, dropping `"0.0.0.0"`
and any non-string key, then `{"mac": bucket["key"], "addrs": [...]}`. -/
def macEntry (bucket : Json) : Json :=
  let addrs :=
    match ((bucket.get "assigned_ip").get "buckets").asArray with
    | some buckets =>
      buckets.filterMap (fun v =>
        match v.get "key" with
        | .str s => if s != "0.0.0.0" then some (Json.str s) else none
        | _ => none)
    | none => []
  .obj [("mac", bucket.get "key"), ("addrs", .arr addrs)]

/-- Response formatting of `mac` (dhcp.rs lines 219-245). -/
def macFormat (response : Json) : Json :=
  let results :=
    match (((response.get "aggregations").get "client_mac").get "buckets").asArray with
    | some buckets => buckets.map macEntry
    | none => []
  .obj [("data", .arr results)]

/-- One record of the `ip` report (dhcp.rs lines 286-298): collect the
string keys of the nested `client_mac` buckets (non-string keys
dropped), then `{"ip": bucket["key"], "macs": [...]}`. -/
def ipEntry (bucket : Json) : Json :=
  let addrs :=
    match ((bucket.get "client_mac").get "buckets").asArray with
    | some buckets =>
      buckets.filterMap (fun v =>
        match v.get "key" with
        | .str s => some (Json.str s)
        | _ => none)
    | none => []
  .obj [("ip", bucket.get "key"), ("macs", .arr addrs)]

/-- Response formatting of `ip` (dhcp.rs lines 276-304): buckets whose
`key` equals the string `"0.0.0.0"` are skipped entirely
(`continue`, line 283). -/
def ipFormat (response : Json) : Json :=
  let results :=
    match (((response.get "aggregations").get "assigned_ip").get "buckets").asArray with
    | some buckets =>
      buckets.filterMap (fun bucket =>
        if (bucket.get "key").eqStr "0.0.0.0" then none
        else some (ipEntry bucket))
    | none => []
  .obj [("data", .arr results)]

/-- `dhcp_report_ack` (dhcp.rs lines 50-96): append the
`dhcp.dhcp_type = ack` discriminator filter, attach `ackAggs`, size 0,
run the search, format the response. -/
def dhcp_report_ack (filters : List Filter) (store : Store) :
    Except DatastoreError Json :=
  let request : SearchRequest :=
    { filters := filters ++ [.term "dhcp.dhcp_type" "ack"]
      aggs := ackAggs
      size := 0 }
  match store request with
  | .error e => .error (.storeError e)
  | .ok response => .ok (ackFormat response)

/-- `dhcp_report_request` (dhcp.rs lines 98-146). -/
def dhcp_report_request (filters : List Filter) (store : Store) :
    Except DatastoreError Json :=
  let request : SearchRequest :=
    { filters := filters ++ [.term "dhcp.dhcp_type" "request"]
      aggs := requestAggs
      size := 0 }
  match store request with
  | .error e => .error (.storeError e)
  | .ok response => .ok (requestFormat response)

/-- `servers` (dhcp.rs lines 149-186). -/
def servers (filters : List Filter) (store : Store) :
    Except DatastoreError Json :=
  let request : SearchRequest :=
    { filters := filters ++ [.term "dhcp.type" "reply"]
      aggs := serversAggs
      size := 0 }
  match store request with
  | .error e => .error (.storeError e)
  | .ok response => .ok (serversFormat response)

/-- `mac` (dhcp.rs lines 190-246). -/
def mac (filters : List Filter) (store : Store) :
    Except DatastoreError Json :=
  let request : SearchRequest :=
    { filters := filters ++ [.term "dhcp.type" "reply"]
      aggs := macAggs
      size := 0 }
  match store request with
  | .error e => .error (.storeError e)
  | .ok response => .ok (macFormat response)

/-- `ip` (dhcp.rs lines 250-306). -/
def ip (filters : List Filter) (store : Store) :
    Except DatastoreError Json :=
  let request : SearchRequest :=
    { filters := filters ++ [.term "dhcp.type" "reply"]
      aggs := ipAggs
      size := 0 }
  match store request with
  | .error e => .error (.storeError e)
  | .ok response => .ok (ipFormat response)

/-- `dhcp_report` (dhcp.rs lines 23-48): build the shared filters
(event_type = dhcp, optional timestamp lower bound, optional query
string) and dispatch on the report kind; unknown kinds fail with
`anyhow!("No DHCP report for {}", what)` before any store use. -/
def dhcp_report (what : String) (params : EventQueryParams)
    (store : Store) : Except DatastoreError Json :=
  let filters := [Filter.term "event_type" "dhcp"]
  let filters :=
    match params.min_timestamp with
    | some dt => filters ++ [Filter.timestampGte dt]
    | none => filters
  let filters :=
    match params.query_string with
    | some q => filters ++ [Filter.queryString q]
    | none => filters
  match what with
  | "ack" => dhcp_report_ack filters store
  | "request" => dhcp_report_request filters store
  | "servers" => servers filters store
  | "mac" => mac filters store
  | "ip" => ip filters store
  | _ => .error (.anyhowError ("No DHCP report for " ++ what))

/-- Modelled from the spec: the single shared ack/request lease-report
algorithm, "differing only in the discriminator filter value"; used to
state the refinement claim C8 against the two source formatters. -/
def specSharedLeaseReport (dhcpType : String) (filters : List Filter)
    (store : Store) : Except DatastoreError Json :=
  let request : SearchRequest :=
    { filters := filters ++ [.term "dhcp.dhcp_type" dhcpType]
      aggs := ackAggs
      size := 0 }
  match store request with
  | .error e => .error (.storeError e)
  | .ok response => .ok (ackFormat response)

/-- The record list of a report result: the elements under its
`"data"` key (empty when absent, which the theorems rule out). -/
def dataList (j : Json) : List Json := ((j.get "data").asArray).getD []

/-- The elements of a JSON array value (empty when not an array). -/
def elemsOf (j : Json) : List Json := j.asArray.getD []

lemma eqStr_eq_false {k : Json} {s : String} (h : k.eqStr s = false) :
    k ≠ Json.str s := by
  intro hk
  subst hk
  simp [Json.eqStr] at h

lemma dataList_macFormat (response : Json) :
    dataList (macFormat response)
      = match (((response.get "aggregations").get "client_mac").get "buckets").asArray with
        | some buckets => buckets.map macEntry
        | none => [] := rfl

lemma dataList_ipFormat (response : Json) :
    dataList (ipFormat response)
      = match (((response.get "aggregations").get "assigned_ip").get "buckets").asArray with
        | some buckets =>
          buckets.filterMap (fun bucket =>
            if (bucket.get "key").eqStr "0.0.0.0" then none
            else some (ipEntry bucket))
        | none => [] := rfl

lemma ipEntry_ip (bucket : Json) : (ipEntry bucket).get "ip" = bucket.get "key" := rfl

/-- Every element of a mac-report record's `addrs` list is a string
distinct from `"0.0.0.0"`. -/
lemma mem_macEntry_addrs {bucket a : Json}
    (ha : a ∈ elemsOf ((macEntry bucket).get "addrs")) :
    ∃ s, a = Json.str s ∧ s ≠ "0.0.0.0" := by
  have ha : a ∈
      (match ((bucket.get "assigned_ip").get "buckets").asArray with
       | some buckets => buckets.filterMap (fun (v : Json) =>
           match v.get "key" with
           | .str s => if s != "0.0.0.0" then some (Json.str s) else none
           | _ => none)
       | none => []) := ha
  split at ha
  · obtain ⟨v, -, hv⟩ := List.mem_filterMap.mp ha
    rcases hkey : v.get "key" with _ | b | n | s | items | fields <;>
      rw [hkey] at hv <;> simp at hv
    obtain ⟨hs, rfl⟩ := hv
    exact ⟨s, rfl, hs⟩
  · simp at ha

/-- Every element of an ip-report record's `macs` list is a string. -/
lemma mem_ipEntry_macs {bucket a : Json}
    (ha : a ∈ elemsOf ((ipEntry bucket).get "macs")) :
    ∃ s, a = Json.str s := by
  have ha : a ∈
      (match ((bucket.get "client_mac").get "buckets").asArray with
       | some buckets => buckets.filterMap (fun (v : Json) =>
           match v.get "key" with
           | .str s => some (Json.str s)
           | _ => none)
       | none => []) := ha
  split at ha
  · obtain ⟨v, -, hv⟩ := List.mem_filterMap.mp ha
    rcases hkey : v.get "key" with _ | b | n | s | items | fields <;>
      rw [hkey] at hv <;> simp at hv
    exact ⟨s, hv.symm⟩
  · simp at ha

/-- Store response for the C7 scenario: one `client_mac` bucket with
key `"aa:bb"`, `doc_count` 3 and nested `assigned_ip` buckets
`"10.0.0.5"` and `"0.0.0.0"`. -/
def respC7 : Json :=
  .obj [("aggregations", .obj [("client_mac", .obj [("buckets", .arr [
    .obj [("key", .str "aa:bb"), ("doc_count", .num 3),
          ("assigned_ip", .obj [("buckets", .arr [
            .obj [("key", .str "10.0.0.5")],
            .obj [("key", .str "0.0.0.0")]])])]])])])]

/-- C7: for the mac report, the scenario response with one bucket
(key `"aa:bb"`, nested assigned ips `"10.0.0.5"` and `"0.0.0.0"`)
produces exactly one record, with addrs `["10.0.0.5"]`. -/
theorem claim_c7 :
    dhcp_report "mac" ⟨none, none⟩ (fun _ => Except.ok respC7)
      = Except.ok (Json.obj [("data", Json.arr [
          Json.obj [("mac", Json.str "aa:bb"),
                    ("addrs", Json.arr [Json.str "10.0.0.5"])]])]) := rfl

/-- C5 counterexample: the nested `assigned_ip` terms aggregation of
the mac report and the nested `client_mac` terms aggregation of the ip
report carry no `size` member at all, contradicting the claimed
explicit cap of 10000 on every terms aggregation. -/
theorem claim_c5_counterexample :
    ((((macAggs.get "client_mac").get "aggs").get "assigned_ip").get "terms").get "field"
        = Json.str "dhcp.assigned_ip.keyword"
    ∧ ((((macAggs.get "client_mac").get "aggs").get "assigned_ip").get "terms").get "size"
        = Json.null
    ∧ ((((ipAggs.get "assigned_ip").get "aggs").get "client_mac").get "terms").get "field"
        = Json.str "dhcp.client_mac.keyword"
    ∧ ((((ipAggs.get "assigned_ip").get "aggs").get "client_mac").get "terms").get "size"
        = Json.null :=
  ⟨rfl, rfl, rfl, rfl⟩

/-- C5 amended: every top-level terms aggregation of the five reports
carries the explicit size cap 10000, while the nested child terms
aggregations of the mac and ip reports carry no size member. -/
theorem claim_c5_amended :
    ((ackAggs.get "client_mac").get "terms").get "size" = Json.num 10000
    ∧ ((requestAggs.get "client_mac").get "terms").get "size" = Json.num 10000
    ∧ ((serversAggs.get "servers").get "terms").get "size" = Json.num 10000
    ∧ ((macAggs.get "client_mac").get "terms").get "size" = Json.num 10000
    ∧ ((ipAggs.get "assigned_ip").get "terms").get "size" = Json.num 10000
    ∧ ((((macAggs.get "client_mac").get "aggs").get "assigned_ip").get "terms").get "size"
        = Json.null
    ∧ ((((ipAggs.get "assigned_ip").get "aggs").get "client_mac").get "terms").get "size"
        = Json.null :=
  ⟨rfl, rfl, rfl, rfl, rfl, rfl, rfl⟩

/-- C3: for a report kind outside the five supported ones,
`dhcp_report` fails with the anyhow error naming the requested kind,
and the result does not depend on the store (no search is issued). -/
theorem claim_c3 (what : String)
    (h : what ∉ (["ack", "request", "servers", "mac", "ip"] : List String))
    (params : EventQueryParams) (store1 store2 : Store) :
    dhcp_report what params store1
        = Except.error (.anyhowError ("No DHCP report for " ++ what))
    ∧ dhcp_report what params store1 = dhcp_report what params store2 := by
  simp only [List.mem_cons, List.not_mem_nil, or_false, not_or] at h
  obtain ⟨h1, h2, h3, h4, h5⟩ := h
  have key : ∀ st : Store, dhcp_report what params st
      = Except.error (.anyhowError ("No DHCP report for " ++ what)) := by
    intro st
    unfold dhcp_report
    split <;> simp_all
  exact ⟨key store1, (key store1).trans (key store2).symm⟩

def c3store1 : Store := fun _ => Except.ok Json.null

def c3store2 : Store := fun _ => Except.error "store down"

/-- C3 witness at the spec scenario `reportKind = "bogus"`. -/
theorem claim_c3_witness :
    ("bogus" : String) ∉ (["ack", "request", "servers", "mac", "ip"] : List String)
    ∧ (dhcp_report "bogus" ⟨none, none⟩ c3store1
          = Except.error (.anyhowError ("No DHCP report for " ++ "bogus"))
        ∧ dhcp_report "bogus" ⟨none, none⟩ c3store1
          = dhcp_report "bogus" ⟨none, none⟩ c3store2) :=
  ⟨by decide, claim_c3 "bogus" (by decide) ⟨none, none⟩ c3store1 c3store2⟩

/-- C9: `dhcp_report` is deterministic — two runs against stores that
answer every request identically produce identical results. -/
theorem claim_c9 (what : String) (params : EventQueryParams)
    (store1 store2 : Store) (h : ∀ r, store1 r = store2 r) :
    dhcp_report what params store1 = dhcp_report what params store2 := by
  have hs : store1 = store2 := funext h
  rw [hs]

def c9store1 : Store := fun _ => Except.ok (Json.num (0 + 1))

def c9store2 : Store := fun _ => Except.ok (Json.num 1)

/-- C9 witness: two syntactically different but pointwise-equal stores
give the same servers report. -/
theorem claim_c9_witness :
    dhcp_report "servers" ⟨none, none⟩ c9store1
      = dhcp_report "servers" ⟨none, none⟩ c9store2 :=
  claim_c9 "servers" ⟨none, none⟩ c9store1 c9store2 (fun _ => rfl)

/-- C1: in the mac report no record's `addrs` list contains the string
`"0.0.0.0"`, and in the ip report no record's `ip` identifier is the
string `"0.0.0.0"` (buckets keyed `"0.0.0.0"` are skipped). -/
theorem claim_c1 (response : Json) :
    (∀ r ∈ dataList (macFormat response), ∀ a ∈ elemsOf (r.get "addrs"),
        a ≠ Json.str "0.0.0.0")
    ∧ (∀ r ∈ dataList (ipFormat response), r.get "ip" ≠ Json.str "0.0.0.0") := by
  constructor
  · intro r hr a ha
    rw [dataList_macFormat] at hr
    split at hr
    · obtain ⟨b, -, rfl⟩ := List.mem_map.mp hr
      obtain ⟨s, rfl, hs⟩ := mem_macEntry_addrs ha
      simp [hs]
    · simp at hr
  · intro r hr
    rw [dataList_ipFormat] at hr
    split at hr
    · obtain ⟨b, -, hb⟩ := List.mem_filterMap.mp hr
      by_cases h0 : (b.get "key").eqStr "0.0.0.0" = true
      · rw [if_pos h0] at hb
        exact absurd hb (by simp)
      · rw [if_neg h0] at hb
        obtain rfl := Option.some.inj hb
        rw [ipEntry_ip]
        exact eqStr_eq_false (by simpa using h0)
    · simp at hr

/-- Store response exercising both halves of C1: a mac-report bucket
whose nested ips include `"0.0.0.0"`, and an ip-report bucket list
headed by a `"0.0.0.0"` bucket. -/
def respC1 : Json :=
  .obj [("aggregations", .obj [
    ("client_mac", .obj [("buckets", .arr [
      .obj [("key", .str "m1"), ("assigned_ip", .obj [("buckets", .arr [
        .obj [("key", .str "1.2.3.4")],
        .obj [("key", .str "0.0.0.0")]])])]])]),
    ("assigned_ip", .obj [("buckets", .arr [
      .obj [("key", .str "0.0.0.0")],
      .obj [("key", .str "1.2.3.4"),
            ("client_mac", .obj [("buckets", .arr [])])]])])])]

/-- C1 witness at a concrete response. -/
theorem claim_c1_witness :
    Json.str "1.2.3.4" ≠ Json.str "0.0.0.0"
    ∧ (Json.obj [("ip", Json.str "1.2.3.4"), ("macs", Json.arr [])]).get "ip"
        ≠ Json.str "0.0.0.0" :=
  ⟨(claim_c1 respC1).1
      (Json.obj [("mac", Json.str "m1"), ("addrs", Json.arr [Json.str "1.2.3.4"])])
      (List.Mem.head _) (Json.str "1.2.3.4") (List.Mem.head _),
   (claim_c1 respC1).2
      (Json.obj [("ip", Json.str "1.2.3.4"), ("macs", Json.arr [])])
      (List.Mem.head _)⟩

/-- Store response for C2: the first nested `assigned_ip` bucket has a
malformed key (an array, neither string nor number). -/
def respC2 : Json :=
  .obj [("aggregations", .obj [("client_mac", .obj [("buckets", .arr [
    .obj [("key", .str "aa:bb"), ("doc_count", .num 3),
          ("assigned_ip", .obj [("buckets", .arr [
            .obj [("key", .arr [])],
            .obj [("key", .str "10.0.0.5")]])])]])])])]

/-- C2 counterexample: a bucket key that is neither string nor number
does not make the mac report fail; the report succeeds and the
malformed key is silently omitted from `addrs`. -/
theorem claim_c2_counterexample :
    (Json.obj [("key", Json.arr [])]).get "key" = Json.arr []
    ∧ dhcp_report "mac" ⟨none, none⟩ (fun _ => Except.ok respC2)
        = Except.ok (Json.obj [("data", Json.arr [
            Json.obj [("mac", Json.str "aa:bb"),
                      ("addrs", Json.arr [Json.str "10.0.0.5"])]])]) :=
  ⟨rfl, rfl⟩

/-- C2 amended: for every decoded response, the mac and ip reports
succeed (no decode error exists for malformed bucket keys); nested
bucket keys that are not strings are silently dropped, so every
`addrs`/`macs` entry is a string. -/
theorem claim_c2_amended (response : Json) (params : EventQueryParams) :
    dhcp_report "mac" params (fun _ => Except.ok response)
        = Except.ok (macFormat response)
    ∧ dhcp_report "ip" params (fun _ => Except.ok response)
        = Except.ok (ipFormat response)
    ∧ (∀ r ∈ dataList (macFormat response), ∀ a ∈ elemsOf (r.get "addrs"),
        ∃ s, a = Json.str s)
    ∧ (∀ r ∈ dataList (ipFormat response), ∀ a ∈ elemsOf (r.get "macs"),
        ∃ s, a = Json.str s) := by
  refine ⟨rfl, rfl, ?_, ?_⟩
  · intro r hr a ha
    rw [dataList_macFormat] at hr
    split at hr
    · obtain ⟨b, -, rfl⟩ := List.mem_map.mp hr
      obtain ⟨s, rfl, -⟩ := mem_macEntry_addrs ha
      exact ⟨s, rfl⟩
    · simp at hr
  · intro r hr a ha
    rw [dataList_ipFormat] at hr
    split at hr
    · obtain ⟨b, -, hb⟩ := List.mem_filterMap.mp hr
      by_cases h0 : (b.get "key").eqStr "0.0.0.0" = true
      · rw [if_pos h0] at hb
        exact absurd hb (by simp)
      · rw [if_neg h0] at hb
        obtain rfl := Option.some.inj hb
        exact mem_ipEntry_macs ha
    · simp at hr

/-- C2 witness: the amended behaviour at the malformed-key response. -/
theorem claim_c2_witness :
    dhcp_report "mac" ⟨none, none⟩ (fun _ => Except.ok respC2)
        = Except.ok (macFormat respC2)
    ∧ ∃ s, Json.str "10.0.0.5" = Json.str s :=
  ⟨(claim_c2_amended respC2 ⟨none, none⟩).1,
   (claim_c2_amended respC2 ⟨none, none⟩).2.2.1
      (Json.obj [("mac", Json.str "aa:bb"), ("addrs", Json.arr [Json.str "10.0.0.5"])])
      (List.Mem.head _) (Json.str "10.0.0.5") (List.Mem.head _)⟩

/-- Store response with an empty buckets array under every aggregation
name the five reports read. -/
def respC4 : Json :=
  .obj [("aggregations", .obj [
    ("client_mac", .obj [("buckets", .arr [])]),
    ("servers", .obj [("buckets", .arr [])]),
    ("assigned_ip", .obj [("buckets", .arr [])])])]

lemma ok_shape_ack {filters : List Filter} {store : Store} {j : Json}
    (h : dhcp_report_ack filters store = Except.ok j) :
    ∃ l, j = Json.obj [("data", Json.arr l)] := by
  unfold dhcp_report_ack at h
  dsimp only at h
  split at h
  · exact absurd h (by simp)
  · obtain rfl := Except.ok.inj h
    exact ⟨_, rfl⟩

lemma ok_shape_request {filters : List Filter} {store : Store} {j : Json}
    (h : dhcp_report_request filters store = Except.ok j) :
    ∃ l, j = Json.obj [("data", Json.arr l)] := by
  unfold dhcp_report_request at h
  dsimp only at h
  split at h
  · exact absurd h (by simp)
  · obtain rfl := Except.ok.inj h
    exact ⟨_, rfl⟩

lemma ok_shape_servers {filters : List Filter} {store : Store} {j : Json}
    (h : servers filters store = Except.ok j) :
    ∃ l, j = Json.obj [("data", Json.arr l)] := by
  unfold servers at h
  dsimp only at h
  split at h
  · exact absurd h (by simp)
  · obtain rfl := Except.ok.inj h
    exact ⟨_, rfl⟩

lemma ok_shape_mac {filters : List Filter} {store : Store} {j : Json}
    (h : mac filters store = Except.ok j) :
    ∃ l, j = Json.obj [("data", Json.arr l)] := by
  unfold mac at h
  dsimp only at h
  split at h
  · exact absurd h (by simp)
  · obtain rfl := Except.ok.inj h
    exact ⟨_, rfl⟩

lemma ok_shape_ip {filters : List Filter} {store : Store} {j : Json}
    (h : ip filters store = Except.ok j) :
    ∃ l, j = Json.obj [("data", Json.arr l)] := by
  unfold ip at h
  dsimp only at h
  split at h
  · exact absurd h (by simp)
  · obtain rfl := Except.ok.inj h
    exact ⟨_, rfl⟩

/-- C4: every successful report result is `{"data": [...]}` with an
array value, and both a response missing the aggregation path entirely
and a response with empty buckets yield `{"data": []}`, not an error. -/
theorem claim_c4 :
    (∀ what params store j, dhcp_report what params store = Except.ok j →
      ∃ l, j = Json.obj [("data", Json.arr l)])
    ∧ (∀ what ∈ (["ack", "request", "servers", "mac", "ip"] : List String), ∀ params,
        dhcp_report what params (fun _ => Except.ok (Json.obj []))
          = Except.ok (Json.obj [("data", Json.arr [])]))
    ∧ (∀ what ∈ (["ack", "request", "servers", "mac", "ip"] : List String), ∀ params,
        dhcp_report what params (fun _ => Except.ok respC4)
          = Except.ok (Json.obj [("data", Json.arr [])])) := by
  refine ⟨?_, ?_, ?_⟩
  · intro what params store j h
    unfold dhcp_report at h
    repeat' split at h
    all_goals try dsimp only at h
    all_goals
      first
      | exact ok_shape_ack h
      | exact ok_shape_request h
      | exact ok_shape_servers h
      | exact ok_shape_mac h
      | exact ok_shape_ip h
      | simp at h
  · intro what hw params
    simp only [List.mem_cons, List.not_mem_nil, or_false] at hw
    rcases hw with rfl | rfl | rfl | rfl | rfl <;> rfl
  · intro what hw params
    simp only [List.mem_cons, List.not_mem_nil, or_false] at hw
    rcases hw with rfl | rfl | rfl | rfl | rfl <;> rfl

/-- C4 witness: the envelope shape at a concrete successful run, and
the empty-buckets scenario at a concrete kind. -/
theorem claim_c4_witness :
    (∃ l, Json.obj [("data", Json.arr [])] = Json.obj [("data", Json.arr l)])
    ∧ dhcp_report "mac" ⟨none, none⟩ (fun _ => Except.ok respC4)
        = Except.ok (Json.obj [("data", Json.arr [])]) :=
  ⟨claim_c4.1 "servers" ⟨none, none⟩ (fun _ => Except.ok (Json.obj []))
      (Json.obj [("data", Json.arr [])]) rfl,
   claim_c4.2.2 "mac" (by simp) ⟨none, none⟩⟩

/-- C6: with N `servers` buckets the servers report yields exactly N
records, in bucket order, each `{"ip": key, "count": doc_count}`. -/
theorem claim_c6 (response : Json) (buckets : List Json)
    (h : ((response.get "aggregations").get "servers").get "buckets" = Json.arr buckets) :
    serversFormat response = Json.obj [("data", Json.arr (buckets.map (fun b =>
      Json.obj [("ip", b.get "key"), ("count", b.get "doc_count")])))] := by
  unfold serversFormat
  rw [h]
  rfl

/-- Store response for the C6 witness: two servers buckets. -/
def respC6 : Json :=
  .obj [("aggregations", .obj [("servers", .obj [("buckets", .arr [
    .obj [("key", .str "10.1.1.1"), ("doc_count", .num 7)],
    .obj [("key", .str "10.1.1.2"), ("doc_count", .num 2)]])])])]

/-- C6 witness at a concrete two-bucket response. -/
theorem claim_c6_witness :
    serversFormat respC6 = Json.obj [("data", Json.arr [
      Json.obj [("ip", Json.str "10.1.1.1"), ("count", Json.num 7)],
      Json.obj [("ip", Json.str "10.1.1.2"), ("count", Json.num 2)]])] :=
  claim_c6 respC6
    [Json.obj [("key", Json.str "10.1.1.1"), ("doc_count", Json.num 7)],
     Json.obj [("key", Json.str "10.1.1.2"), ("doc_count", Json.num 2)]] rfl

/-- C8: the ack and request formatters are the same function of
(filters, store response) — identical aggregation spec, identical
response formatting — differing only in the discriminator filter value
passed to the shared algorithm. -/
theorem claim_c8 :
    ackAggs = requestAggs
    ∧ (∀ response, ackFormat response = requestFormat response)
    ∧ (∀ filters store,
        dhcp_report_ack filters store = specSharedLeaseReport "ack" filters store)
    ∧ (∀ filters store,
        dhcp_report_request filters store = specSharedLeaseReport "request" filters store) :=
  ⟨rfl, fun _ => rfl, fun _ _ => rfl, fun _ _ => rfl⟩

/-- C10: the ack/request record list maps every `client_mac` bucket to
its extracted top hit, so a bucket with an empty `latest.hits.hits`
array (or a first hit with no `_source`) still contributes one record,
and that record is JSON null. -/
theorem claim_c10 (response : Json) (buckets : List Json)
    (h : ((response.get "aggregations").get "client_mac").get "buckets"
        = Json.arr buckets) :
    ackFormat response = Json.obj [("data", Json.arr (buckets.map latestOf))]
    ∧ requestFormat response = Json.obj [("data", Json.arr (buckets.map latestOf))]
    ∧ (∀ b, ((b.get "latest").get "hits").get "hits" = Json.arr [] →
        latestOf b = Json.null)
    ∧ (∀ b hit, ((b.get "latest").get "hits").get "hits" = Json.arr [hit] →
        hit.get "_source" = Json.null → latestOf b = Json.null) := by
  refine ⟨?_, ?_, ?_, ?_⟩
  · unfold ackFormat
    rw [h]
    rfl
  · unfold requestFormat
    rw [h]
    rfl
  · intro b hb
    unfold latestOf
    rw [hb]
    rfl
  · intro b hit hb hsrc
    unfold latestOf
    rw [hb]
    exact hsrc

/-- One ack-report bucket whose `latest.hits.hits` array is empty. -/
def respC10bucket : Json :=
  .obj [("key", .str "aa:bb"),
        ("latest", .obj [("hits", .obj [("hits", .arr [])])])]

/-- Store response for the C10 witness. -/
def respC10 : Json :=
  .obj [("aggregations", .obj [("client_mac", .obj [("buckets",
    .arr [respC10bucket])])])]

/-- C10 witness: the empty-hits bucket contributes a null record. -/
theorem claim_c10_witness :
    ackFormat respC10 = Json.obj [("data", Json.arr [Json.null])]
    ∧ latestOf respC10bucket = Json.null :=
  ⟨(claim_c10 respC10 [respC10bucket] rfl).1,
   (claim_c10 respC10 [respC10bucket] rfl).2.2.1 respC10bucket rfl⟩

end Evebox
